import Mathlib

/-!
Shallow embedding of the Greatland Gold DCF valuation scripts.

The repository holds three variants of one DCF engine:
  * `ggp-dcf-app..py`  — 5-year model, GBP, constant annual FCF (namespace `App5`);
  * `ggp-dcf-app_2.py` — 10-year model, AUD, growth/flat production, proportional-gap
    capex decline (namespace `App10`);
  * `ggp-dcf-app_4.py` — 20-year model, AUD, growth/flat/decline production, linear
    capex decline, plus a gold × production sensitivity grid (namespace `App20`).

Python float arithmetic is embedded as exact rational arithmetic over `ℚ`; the
decimal literals of the source (`0.79`, `0.33`, `0.99`) become the corresponding
rationals.  Year series are `ℕ → ℚ`, 1-indexed exactly as the source loops
(`for year in range(1, N+1)`); index 0 carries the pre-loop initial value of the
corresponding Python variable.  The Python `ZeroDivisionError` raised by `/` is
embedded by `Option`-valued division where a claim is about failure behaviour.
-/

namespace GGP

/-- AISC path, identical in `ggp-dcf-app_2.py` lines 90–97 and
`ggp-dcf-app_4.py` lines 59–66: year 1 is `aisc_y1`; years 2–5 step down by
`aisc_improvement`, floored at 1600; afterwards flat. -/
def aiscs (a1 imp : ℚ) : ℕ → ℚ
  | 0 => a1
  | 1 => a1
  | n + 2 =>
    if n + 2 ≤ 5 then max (aiscs a1 imp (n + 1) - imp) 1600
    else aiscs a1 imp (n + 1)

/-! ## 5-year variant (`ggp-dcf-app..py`) -/

namespace App5

/-- Line 33: `gold_price_gbp = gold_price_usd * usd_to_gbp`. -/
def gold_price_gbp (gold_usd fx : ℚ) : ℚ := gold_usd * fx

/-- Line 34: `aisc_gbp = aisc_usd * usd_to_gbp`. -/
def aisc_gbp (aisc_usd fx : ℚ) : ℚ := aisc_usd * fx

/-- Line 35: `margin_per_oz = gold_price_gbp - aisc_gbp`. -/
def margin_per_oz (gold_usd aisc_usd fx : ℚ) : ℚ :=
  gold_price_gbp gold_usd fx - aisc_gbp aisc_usd fx

/-- Line 36: `operating_cf = margin_per_oz * production_oz`. -/
def operating_cf (gold_usd aisc_usd fx prod : ℚ) : ℚ :=
  margin_per_oz gold_usd aisc_usd fx * prod

/-- Line 37: `annual_fcf = operating_cf - corp_costs_gbp - growth_capex_gbp`. -/
def annual_fcf (gold_usd aisc_usd fx prod corp capex : ℚ) : ℚ :=
  operating_cf gold_usd aisc_usd fx prod - corp - capex

/-- Lines 45–50: total cash flow of year `t`; the terminal value
`annual_fcf * terminal_multiple` is added only when `t` is the final year. -/
def fcf_t_total (af tm : ℚ) (years t : ℕ) : ℚ :=
  if t = years then af + af * tm else af

/-- Line 52: `pv_t = fcf_t_total / ((1 + wacc) ** t)`. -/
def pv_t (af tm w : ℚ) (years t : ℕ) : ℚ :=
  fcf_t_total af tm years t / (1 + w) ^ t

/-- Line 56: `equity_value_gbp = sum(discounted_list)`. -/
def equity_value_gbp (af tm w : ℚ) (years : ℕ) : ℚ :=
  ∑ t in Finset.Icc 1 years, pv_t af tm w years t

/-- Line 57: `value_per_share_gbp = equity_value_gbp / shares_out`. -/
def value_per_share_gbp (af tm w : ℚ) (years : ℕ) (shares : ℚ) : ℚ :=
  equity_value_gbp af tm w years / shares

end App5

/-! ## 10-year variant (`ggp-dcf-app_2.py`) -/

namespace App10

/-- Lines 78–86: production grows by `production_growth` in years 2–5,
then is flat. -/
def prods (p1 g : ℚ) : ℕ → ℚ
  | 0 => p1
  | 1 => p1
  | n + 2 =>
    if n + 2 ≤ 5 then prods p1 g (n + 1) * (1 + g)
    else prods p1 g (n + 1)

/-- Lines 99–112: proportional-gap capex policy.  Years 2–4 step down by 33 %
of the year-1 gap `capexes[0] - capex_decline_to` (skipped when the gap is not
positive), clipped from below at the steady state; year 5 onward flat at the
steady state. -/
def capexes (c1 ss : ℚ) : ℕ → ℚ
  | 0 => c1
  | 1 => c1
  | n + 2 =>
    if n + 2 ≤ 4 then
      let c := if c1 - ss > 0 then capexes c1 ss (n + 1) - 33 / 100 * (c1 - ss) else ss
      if c < ss then ss else c
    else ss

/-- Line 115: `margin_per_oz = gold_price_aud - aisc`. -/
def margin (gold a1 imp : ℚ) (t : ℕ) : ℚ := gold - aiscs a1 imp t

/-- Line 116: `operating_cf = margin_per_oz * prod`. -/
def operating_cf (gold a1 imp p1 g : ℚ) (t : ℕ) : ℚ :=
  margin gold a1 imp t * prods p1 g t

/-- Line 117: `fcf = operating_cf - corp_costs - capex`. -/
def fcf (gold a1 imp p1 g c1 ss corp : ℚ) (t : ℕ) : ℚ :=
  operating_cf gold a1 imp p1 g t - corp - capexes c1 ss t

/-- Lines 122–127: cash flow of year `t` entering the discounting; the terminal
value `fcfs[-1] * terminal_multiple` is added only in year 10. -/
def total (f : ℕ → ℚ) (tm : ℚ) (t : ℕ) : ℚ :=
  if t = 10 then f t + f 10 * tm else f t

/-- Line 129: `pv = total_in_year / ((1 + wacc) ** year)`. -/
def pv (f : ℕ → ℚ) (tm w : ℚ) (t : ℕ) : ℚ := total f tm t / (1 + w) ^ t

/-- Line 132: `enterprise_value = sum(pvs)`. -/
def enterprise_value (f : ℕ → ℚ) (tm w : ℚ) : ℚ :=
  ∑ t in Finset.Icc 1 10, pv f tm w t

/-- Line 135: `equity_value = enterprise_value + cash_balance - deferred_liability`. -/
def equity_value (f : ℕ → ℚ) (tm w cash defer : ℚ) : ℚ :=
  enterprise_value f tm w + cash - defer

/-- Line 136: `value_per_share_aud = equity_value / shares_out`. -/
def value_per_share (f : ℕ → ℚ) (tm w cash defer shares : ℚ) : ℚ :=
  equity_value f tm w cash defer / shares

/-- Python division, made fallible: `a / b` raises `ZeroDivisionError` when
`b = 0`; embedded as `none`. -/
def qdiv (a b : ℚ) : Option ℚ := if b = 0 then none else some (a / b)

/-- Lines 121–130 with fallible division: the list of present values built by
the discount loop, `none` as soon as one division fails. -/
def pvList (f : ℕ → ℚ) (tm w : ℚ) : ℕ → Option (List ℚ)
  | 0 => some []
  | n + 1 => do
    let rest ← pvList f tm w n
    let p ← qdiv (total f tm (n + 1)) ((1 + w) ^ (n + 1))
    pure (rest ++ [p])

/-- Lines 121–136 with fallible division: the whole valuation down to
`value_per_share_aud`, `none` exactly when some Python division raises. -/
def valuation (f : ℕ → ℚ) (tm w cash defer shares : ℚ) : Option ℚ := do
  let pvs ← pvList f tm w 10
  qdiv (pvs.sum + cash - defer) shares

end App10

/-! ## 20-year variant (`ggp-dcf-app_4.py`) -/

namespace App20

/-- Lines 48–56: production grows in years 2–5, is flat in years 6–15, and
declines by 1 % per year afterwards. -/
def prods (p1 g : ℚ) : ℕ → ℚ
  | 0 => p1
  | 1 => p1
  | n + 2 =>
    if n + 2 ≤ 5 then prods p1 g (n + 1) * (1 + g)
    else if n + 2 ≤ 15 then prods p1 g (n + 1)
    else prods p1 g (n + 1) * (99 / 100)

/-- Lines 68–75: linear capex policy.  Years 2–5 take
`max(capex_y1 - step * (year - 1), capex_decline_to)` with
`step = (capex_y1 - capex_decline_to) / 5`; year 6 onward flat. -/
def capexes (c1 ss : ℚ) : ℕ → ℚ
  | 0 => c1
  | 1 => c1
  | n + 2 =>
    if n + 2 ≤ 5 then max (c1 - (c1 - ss) / 5 * ((n : ℚ) + 1)) ss
    else ss

/-- Line 79: `margin = gold_price_aud - aisc`. -/
def margin (gold a1 imp : ℚ) (t : ℕ) : ℚ := gold - aiscs a1 imp t

/-- Line 80: `operating_cf = margin * prod`. -/
def operating_cf (gold a1 imp p1 g : ℚ) (t : ℕ) : ℚ :=
  margin gold a1 imp t * prods p1 g t

/-- Line 81: `fcf = operating_cf - corp_costs - capex`. -/
def fcf (gold a1 imp p1 g c1 ss corp : ℚ) (t : ℕ) : ℚ :=
  operating_cf gold a1 imp p1 g t - corp - capexes c1 ss t

/-- Lines 86–90: cash flow of year `t` entering the discounting; the terminal
value `fcfs[-1] * terminal_multiple` is added only in year 20. -/
def total (f : ℕ → ℚ) (tm : ℚ) (t : ℕ) : ℚ :=
  if t = 20 then f t + f 20 * tm else f t

/-- Line 91: `pv = total / ((1 + wacc) ** year)`. -/
def pv (f : ℕ → ℚ) (tm w : ℚ) (t : ℕ) : ℚ := total f tm t / (1 + w) ^ t

/-- Line 94: `enterprise_value_aud = sum(pvs)`. -/
def enterprise_value (f : ℕ → ℚ) (tm w : ℚ) : ℚ :=
  ∑ t in Finset.Icc 1 20, pv f tm w t

/-- Line 95: `equity_value_aud = enterprise_value_aud + cash_balance - deferred_liability`. -/
def equity_value (f : ℕ → ℚ) (tm w cash defer : ℚ) : ℚ :=
  enterprise_value f tm w + cash - defer

/-- Line 96: `value_per_share_aud = equity_value_aud / shares_out`. -/
def value_per_share (f : ℕ → ℚ) (tm w cash defer shares : ℚ) : ℚ :=
  equity_value f tm w cash defer / shares

/-! Sensitivity grid, lines 141–179.  Lines 147–155 rebuild a production path
from the cell's starting production with the very same growth/flat/decline rule
as the main run, so the cell path is `prods prod_assump production_growth`;
the base-case `aiscs` and `capexes` are reused unchanged. -/

/-- Lines 160–163: `fcf_tmp = (gold_assump - aiscs[i]) * alt_prods[i]
- corp_costs - capexes[i]`. -/
def alt_fcf (gold prod g a1 imp c1 ss corp : ℚ) (t : ℕ) : ℚ :=
  (gold - aiscs a1 imp t) * prods prod g t - corp - capexes c1 ss t

/-- Line 169: `total_tmp = fcf_tmp + (alt_fcfs[-1] * terminal_multiple if
year == 20 else 0)`. -/
def alt_total (gold prod g a1 imp c1 ss corp tm : ℚ) (t : ℕ) : ℚ :=
  alt_fcf gold prod g a1 imp c1 ss corp t +
    (if t = 20 then alt_fcf gold prod g a1 imp c1 ss corp 20 * tm else 0)

/-- Line 170: `pv_tmp = total_tmp / ((1 + wacc) ** year)`. -/
def alt_pv (gold prod g a1 imp c1 ss corp tm w : ℚ) (t : ℕ) : ℚ :=
  alt_total gold prod g a1 imp c1 ss corp tm t / (1 + w) ^ t

/-- Line 173: `ev_tmp_aud = sum(alt_pvs)`. -/
def cell_ev (gold prod g a1 imp c1 ss corp tm w : ℚ) : ℚ :=
  ∑ t in Finset.Icc 1 20, alt_pv gold prod g a1 imp c1 ss corp tm w t

/-- Line 174: `eq_tmp_aud = ev_tmp_aud + cash_balance - deferred_liability`. -/
def cell_equity (gold prod g a1 imp c1 ss corp tm w cash defer : ℚ) : ℚ :=
  cell_ev gold prod g a1 imp c1 ss corp tm w + cash - defer

/-- Line 175: `vps_tmp_aud = eq_tmp_aud / shares_out`. -/
def cell_vps_aud (gold prod g a1 imp c1 ss corp tm w cash defer shares : ℚ) : ℚ :=
  cell_equity gold prod g a1 imp c1 ss corp tm w cash defer / shares

/-- Line 176: `vps_tmp_gbp = vps_tmp_aud / 2`. -/
def cell_vps_gbp (gold prod g a1 imp c1 ss corp tm w cash defer shares : ℚ) : ℚ :=
  cell_vps_aud gold prod g a1 imp c1 ss corp tm w cash defer shares / 2

/-- The claim C10's gold-price coefficient: the discounted,
terminal-multiple-weighted sum of the cell's production path, divided by the
share count. -/
def gold_coeff (prod g tm w shares : ℚ) : ℚ :=
  (∑ t in Finset.Icc 1 20,
      (prods prod g t + if t = 20 then tm * prods prod g 20 else 0) / (1 + w) ^ t) /
    shares

end App20

end GGP

/-! ## Helper lemmas about the generated paths -/

namespace GGP

lemma aiscs_two_add (a1 imp : ℚ) (n : ℕ) :
    aiscs a1 imp (n + 2) =
      if n + 2 ≤ 5 then max (aiscs a1 imp (n + 1) - imp) 1600
      else aiscs a1 imp (n + 1) := rfl

lemma aiscs_ge_floor (a1 imp : ℚ) (ha : 1600 ≤ a1) : ∀ t, 1600 ≤ aiscs a1 imp t
  | 0 => ha
  | 1 => ha
  | n + 2 => by
    rw [aiscs_two_add]
    split
    · exact le_max_right _ _
    · exact aiscs_ge_floor a1 imp ha (n + 1)

lemma aiscs_succ_le (a1 imp : ℚ) (ha : 1600 ≤ a1) (himp : 0 ≤ imp) :
    ∀ t, aiscs a1 imp (t + 1) ≤ aiscs a1 imp t
  | 0 => le_refl _
  | n + 1 => by
    rw [show n + 1 + 1 = n + 2 from rfl, aiscs_two_add]
    split
    · exact max_le (sub_le_self _ himp) (aiscs_ge_floor a1 imp ha (n + 1))
    · exact le_refl _

lemma aiscs_succ_flat (a1 imp : ℚ) (t : ℕ) (ht : 5 ≤ t) :
    aiscs a1 imp (t + 1) = aiscs a1 imp t := by
  obtain ⟨m, rfl⟩ : ∃ m, t = m + 5 := ⟨t - 5, by omega⟩
  have h : m + 5 + 1 = m + 4 + 2 := by omega
  rw [h, aiscs_two_add, if_neg (by omega)]

lemma aiscs_flat (a1 imp : ℚ) : ∀ t, 5 ≤ t → aiscs a1 imp t = aiscs a1 imp 5 := by
  intro t
  induction t with
  | zero => omega
  | succ n ih =>
    intro h
    rcases Nat.lt_or_ge n 5 with h5 | h5
    · have : n + 1 = 5 := by omega
      rw [this]
    · rw [aiscs_succ_flat a1 imp n h5]
      exact ih h5

lemma aiscs_le_max (a1 imp : ℚ) (himp : 0 ≤ imp) : ∀ t, aiscs a1 imp t ≤ max a1 1600
  | 0 => le_max_left _ _
  | 1 => le_max_left _ _
  | n + 2 => by
    rw [aiscs_two_add]
    split
    · exact max_le (le_trans (sub_le_self _ himp) (aiscs_le_max a1 imp himp (n + 1)))
        (le_max_right _ _)
    · exact aiscs_le_max a1 imp himp (n + 1)

namespace App10

lemma prods10_two_add (p1 g : ℚ) (n : ℕ) :
    prods p1 g (n + 2) =
      if n + 2 ≤ 5 then prods p1 g (n + 1) * (1 + g)
      else prods p1 g (n + 1) := rfl

lemma prods10_pos (p1 g : ℚ) (hp : 0 < p1) (hg : 0 ≤ g) : ∀ t, 0 < prods p1 g t
  | 0 => hp
  | 1 => hp
  | n + 2 => by
    rw [prods10_two_add]
    split
    · exact mul_pos (prods10_pos p1 g hp hg (n + 1)) (by linarith)
    · exact prods10_pos p1 g hp hg (n + 1)

lemma capexes10_two_add (c1 ss : ℚ) (n : ℕ) :
    capexes c1 ss (n + 2) =
      if n + 2 ≤ 4 then
        let c := if c1 - ss > 0 then capexes c1 ss (n + 1) - 33 / 100 * (c1 - ss) else ss
        if c < ss then ss else c
      else ss := rfl

end App10

namespace App20

lemma prods_two_add (p1 g : ℚ) (n : ℕ) :
    prods p1 g (n + 2) =
      if n + 2 ≤ 5 then prods p1 g (n + 1) * (1 + g)
      else if n + 2 ≤ 15 then prods p1 g (n + 1)
      else prods p1 g (n + 1) * (99 / 100) := rfl

lemma prods_pos (p1 g : ℚ) (hp : 0 < p1) (hg : 0 ≤ g) : ∀ t, 0 < prods p1 g t
  | 0 => hp
  | 1 => hp
  | n + 2 => by
    rw [prods_two_add]
    split
    · exact mul_pos (prods_pos p1 g hp hg (n + 1)) (by linarith)
    split
    · exact prods_pos p1 g hp hg (n + 1)
    · exact mul_pos (prods_pos p1 g hp hg (n + 1)) (by norm_num)

lemma prods_nonneg (p1 g : ℚ) (hp : 0 ≤ p1) (hg : 0 ≤ g) : ∀ t, 0 ≤ prods p1 g t
  | 0 => hp
  | 1 => hp
  | n + 2 => by
    rw [prods_two_add]
    split
    · exact mul_nonneg (prods_nonneg p1 g hp hg (n + 1)) (by linarith)
    split
    · exact prods_nonneg p1 g hp hg (n + 1)
    · exact mul_nonneg (prods_nonneg p1 g hp hg (n + 1)) (by norm_num)

lemma prods_smul (p1 g : ℚ) : ∀ t, prods p1 g t = p1 * prods 1 g t
  | 0 => (mul_one p1).symm
  | 1 => (mul_one p1).symm
  | n + 2 => by
    rw [prods_two_add, prods_two_add]
    split_ifs <;> rw [prods_smul p1 g (n + 1)] <;> ring

lemma prods_mono1 (g : ℚ) (hg : 0 ≤ g) (p p' : ℚ) (hpp : p ≤ p') (t : ℕ) :
    prods p g t ≤ prods p' g t := by
  rw [prods_smul p g t, prods_smul p' g t]
  exact mul_le_mul_of_nonneg_right hpp (prods_nonneg 1 g zero_le_one hg t)

lemma capexes_two_add (c1 ss : ℚ) (n : ℕ) :
    capexes c1 ss (n + 2) =
      if n + 2 ≤ 5 then max (c1 - (c1 - ss) / 5 * ((n : ℚ) + 1)) ss
      else ss := rfl

end App20

end GGP

/-! ## Claim theorems -/

/-- C1 counterexample: at production 500,000 oz, gold 4000 USD/oz, AISC
2000 USD/oz and FX 0.79, the 5-year engine converts BOTH gold price and AISC to
GBP, so the per-ounce margin is (4000 − 2000) × 0.79 = 1580, not the claimed
1160, and operating cash flow and annual FCF differ accordingly. -/
theorem C1_counterexample :
    GGP.App5.margin_per_oz 4000 2000 (79 / 100) ≠ 1160 ∧
    GGP.App5.operating_cf 4000 2000 (79 / 100) 500000 ≠ 580000000 ∧
    GGP.App5.annual_fcf 4000 2000 (79 / 100) 500000 90000000 150000000 ≠ 340000000 := by
  refine ⟨?_, ?_, ?_⟩ <;>
    norm_num [GGP.App5.margin_per_oz, GGP.App5.operating_cf, GGP.App5.annual_fcf,
      GGP.App5.gold_price_gbp, GGP.App5.aisc_gbp]

/-- C1 amended: in the 5-year variant with production 500,000 oz, gold
4000 USD/oz, AISC 2000 USD/oz, FX 0.79, corporate costs 90,000,000, growth
capex 150,000,000, WACC 10 %, terminal multiple 4 and 670,750,000 shares, the
engine computes local gold price 3160, local AISC 1580, per-ounce margin 1580,
operating cash flow 790,000,000, a constant annual FCF of 550,000,000, a
year-5 total of 550,000,000 + 550,000,000 × 4 = 2,750,000,000, an equity value
equal to the sum of the five discounted totals, and value per share equal to
that equity value divided by 670,750,000. -/
theorem C1_concrete_scenario :
    GGP.App5.gold_price_gbp 4000 (79 / 100) = 3160 ∧
    GGP.App5.aisc_gbp 2000 (79 / 100) = 1580 ∧
    GGP.App5.margin_per_oz 4000 2000 (79 / 100) = 1580 ∧
    GGP.App5.operating_cf 4000 2000 (79 / 100) 500000 = 790000000 ∧
    GGP.App5.annual_fcf 4000 2000 (79 / 100) 500000 90000000 150000000 = 550000000 ∧
    GGP.App5.fcf_t_total 550000000 4 5 5 = 550000000 + 550000000 * 4 ∧
    (GGP.App5.fcf_t_total 550000000 4 5 1 = 550000000 ∧
      GGP.App5.fcf_t_total 550000000 4 5 2 = 550000000 ∧
      GGP.App5.fcf_t_total 550000000 4 5 3 = 550000000 ∧
      GGP.App5.fcf_t_total 550000000 4 5 4 = 550000000) ∧
    GGP.App5.equity_value_gbp 550000000 4 (1 / 10) 5 =
      ∑ t in Finset.Icc 1 5, GGP.App5.pv_t 550000000 4 (1 / 10) 5 t ∧
    GGP.App5.value_per_share_gbp 550000000 4 (1 / 10) 5 670750000 =
      GGP.App5.equity_value_gbp 550000000 4 (1 / 10) 5 / 670750000 := by
  refine ⟨?_, ?_, ?_, ?_, ?_, ?_, ⟨?_, ?_, ?_, ?_⟩, rfl, rfl⟩ <;>
    norm_num [GGP.App5.margin_per_oz, GGP.App5.operating_cf, GGP.App5.annual_fcf,
      GGP.App5.gold_price_gbp, GGP.App5.aisc_gbp, GGP.App5.fcf_t_total]

/-- C2: in both cited discount loops the terminal value is the final year's
FCF times the terminal multiple and is added only to the final year's
pre-discount total; every earlier year's total is exactly its own FCF. -/
theorem C2_terminal_value_once (f : ℕ → ℚ) (tm : ℚ) :
    (GGP.App10.total f tm 10 = f 10 + f 10 * tm ∧
      ∀ t, 1 ≤ t → t < 10 → GGP.App10.total f tm t = f t) ∧
    (GGP.App20.total f tm 20 = f 20 + f 20 * tm ∧
      ∀ t, 1 ≤ t → t < 20 → GGP.App20.total f tm t = f t) := by
  refine ⟨⟨?_, ?_⟩, ?_, ?_⟩
  · unfold GGP.App10.total
    rw [if_pos rfl]
  · intro t h1 ht
    unfold GGP.App10.total
    rw [if_neg (by omega)]
  · unfold GGP.App20.total
    rw [if_pos rfl]
  · intro t h1 ht
    unfold GGP.App20.total
    rw [if_neg (by omega)]

/-- Witness for C2, at the default sidebar inputs of the 10- and 20-year
variants. -/
theorem C2_terminal_value_once_witness :
    GGP.App10.total (GGP.App10.fcf 4800 2600 50 285000 (1 / 50) 368000000 150000000 120000000)
        4 3 =
      GGP.App10.fcf 4800 2600 50 285000 (1 / 50) 368000000 150000000 120000000 3 ∧
    GGP.App20.total (GGP.App20.fcf 4800 2600 50 285000 (1 / 50) 368000000 150000000 120000000)
        4 20 =
      GGP.App20.fcf 4800 2600 50 285000 (1 / 50) 368000000 150000000 120000000 20 +
        GGP.App20.fcf 4800 2600 50 285000 (1 / 50) 368000000 150000000 120000000 20 * 4 :=
  ⟨(C2_terminal_value_once
      (GGP.App10.fcf 4800 2600 50 285000 (1 / 50) 368000000 150000000 120000000) 4).1.2
      3 (by norm_num) (by norm_num),
    (C2_terminal_value_once
      (GGP.App20.fcf 4800 2600 50 285000 (1 / 50) 368000000 150000000 120000000) 4).2.1⟩

/-- C3 counterexample: `aisc_year1 = 1500` is a valid input (the sidebar
minimum is 1500, and the data model only requires `aisc_year1 ≥ 0`), yet the
year-1 AISC of 1500 is below the 1600 floor and the sequence then increases
from year 1 to year 2, refuting both the never-below-floor part (for year 1)
and the non-increasing part of the claim. -/
theorem C3_counterexample :
    GGP.aiscs 1500 50 1 < 1600 ∧ GGP.aiscs 1500 50 1 < GGP.aiscs 1500 50 2 := by
  constructor <;> norm_num [GGP.aiscs]

/-- C3 amended: provided `aisc_year1` is at least the 1600 floor (year 1 is
assigned unfloored) and `aisc_improvement` is non-negative, the AISC sequence
is non-increasing over years 1–5, constant from year 5 to the horizon, and no
element is below 1600. -/
theorem C3_aisc_invariant (a1 imp : ℚ) (ha : 1600 ≤ a1) (himp : 0 ≤ imp) :
    (∀ t, 1 ≤ t → t ≤ 4 → GGP.aiscs a1 imp (t + 1) ≤ GGP.aiscs a1 imp t) ∧
    (∀ t, 5 ≤ t → GGP.aiscs a1 imp t = GGP.aiscs a1 imp 5) ∧
    (∀ t, 1 ≤ t → 1600 ≤ GGP.aiscs a1 imp t) :=
  ⟨fun t _ _ => GGP.aiscs_succ_le a1 imp ha himp t,
    fun t ht => GGP.aiscs_flat a1 imp t ht,
    fun t _ => GGP.aiscs_ge_floor a1 imp ha t⟩

/-- Witness for C3 at the default sidebar inputs. -/
theorem C3_aisc_invariant_witness :
    (1600 : ℚ) ≤ 2600 ∧ (0 : ℚ) ≤ 50 ∧
    GGP.aiscs 2600 50 3 ≤ GGP.aiscs 2600 50 2 ∧
    GGP.aiscs 2600 50 10 = GGP.aiscs 2600 50 5 ∧
    1600 ≤ GGP.aiscs 2600 50 4 :=
  ⟨by norm_num, by norm_num,
    (C3_aisc_invariant 2600 50 (by norm_num) (by norm_num)).1 2 (by norm_num) (by norm_num),
    (C3_aisc_invariant 2600 50 (by norm_num) (by norm_num)).2.1 10 (by norm_num),
    (C3_aisc_invariant 2600 50 (by norm_num) (by norm_num)).2.2 4 (by norm_num)⟩

/-- C5: in the 20-year variant the production path starts at
`production_year1`, compounds by `1 + production_growth_rate` in years 2–5, is
flat in years 6–15, and declines by the factor 0.99 in years 16–20. -/
theorem C5_production_path (p1 g : ℚ) :
    GGP.App20.prods p1 g 1 = p1 ∧
    (∀ t, 2 ≤ t → t ≤ 5 →
      GGP.App20.prods p1 g t = GGP.App20.prods p1 g (t - 1) * (1 + g)) ∧
    (∀ t, 6 ≤ t → t ≤ 15 →
      GGP.App20.prods p1 g t = GGP.App20.prods p1 g (t - 1)) ∧
    (∀ t, 16 ≤ t → t ≤ 20 →
      GGP.App20.prods p1 g t = GGP.App20.prods p1 g (t - 1) * (99 / 100)) := by
  refine ⟨rfl, ?_, ?_, ?_⟩
  · intro t h2 h5
    obtain ⟨n, rfl⟩ : ∃ n, t = n + 2 := ⟨t - 2, by omega⟩
    have hsub : n + 2 - 1 = n + 1 := by omega
    rw [GGP.App20.prods_two_add, if_pos h5, hsub]
  · intro t h6 h15
    obtain ⟨n, rfl⟩ : ∃ n, t = n + 2 := ⟨t - 2, by omega⟩
    have hsub : n + 2 - 1 = n + 1 := by omega
    rw [GGP.App20.prods_two_add, if_neg (by omega), if_pos h15, hsub]
  · intro t h16 h20
    obtain ⟨n, rfl⟩ : ∃ n, t = n + 2 := ⟨t - 2, by omega⟩
    have hsub : n + 2 - 1 = n + 1 := by omega
    rw [GGP.App20.prods_two_add, if_neg (by omega), if_neg (by omega), hsub]

/-- Witness for C5, one year inside each phase, at the default inputs. -/
theorem C5_production_path_witness :
    GGP.App20.prods 285000 (1 / 50) 3 = GGP.App20.prods 285000 (1 / 50) 2 * (1 + 1 / 50) ∧
    GGP.App20.prods 285000 (1 / 50) 8 = GGP.App20.prods 285000 (1 / 50) 7 ∧
    GGP.App20.prods 285000 (1 / 50) 17 = GGP.App20.prods 285000 (1 / 50) 16 * (99 / 100) :=
  ⟨(C5_production_path 285000 (1 / 50)).2.1 3 (by norm_num) (by norm_num),
    (C5_production_path 285000 (1 / 50)).2.2.1 8 (by norm_num) (by norm_num),
    (C5_production_path 285000 (1 / 50)).2.2.2 17 (by norm_num) (by norm_num)⟩

/-- C8: in both variants the year-`t` FCF is exactly
`(gold - aisc[t]) * production[t] - corporate_costs - capex[t]`, with no
clamping anywhere, and the enterprise value is exactly the discounted sum of
these raw cash flows (terminal value only in the last year), so any negative
value flows unchanged into the valuation. -/
theorem C8_fcf_formula_no_clamping (gold a1 imp p1 g c1 ss corp tm w : ℚ) :
    (∀ t, GGP.App10.fcf gold a1 imp p1 g c1 ss corp t =
      (gold - GGP.aiscs a1 imp t) * GGP.App10.prods p1 g t - corp -
        GGP.App10.capexes c1 ss t) ∧
    (∀ t, GGP.App20.fcf gold a1 imp p1 g c1 ss corp t =
      (gold - GGP.aiscs a1 imp t) * GGP.App20.prods p1 g t - corp -
        GGP.App20.capexes c1 ss t) ∧
    GGP.App10.enterprise_value (GGP.App10.fcf gold a1 imp p1 g c1 ss corp) tm w =
      ∑ t in Finset.Icc 1 10,
        (if t = 10 then
          GGP.App10.fcf gold a1 imp p1 g c1 ss corp t +
            GGP.App10.fcf gold a1 imp p1 g c1 ss corp 10 * tm
        else GGP.App10.fcf gold a1 imp p1 g c1 ss corp t) / (1 + w) ^ t ∧
    GGP.App20.enterprise_value (GGP.App20.fcf gold a1 imp p1 g c1 ss corp) tm w =
      ∑ t in Finset.Icc 1 20,
        (if t = 20 then
          GGP.App20.fcf gold a1 imp p1 g c1 ss corp t +
            GGP.App20.fcf gold a1 imp p1 g c1 ss corp 20 * tm
        else GGP.App20.fcf gold a1 imp p1 g c1 ss corp t) / (1 + w) ^ t :=
  ⟨fun _ => rfl, fun _ => rfl, rfl, rfl⟩

/-- C9: with positive year-1 production and a non-negative growth rate, every
element of the generated production path is strictly positive, in both the
10-year and the 20-year variant. -/
theorem C9_production_positive (p1 g : ℚ) (hp : 0 < p1) (hg : 0 ≤ g) :
    (∀ t, 0 < GGP.App10.prods p1 g t) ∧ (∀ t, 0 < GGP.App20.prods p1 g t) :=
  ⟨GGP.App10.prods10_pos p1 g hp hg, GGP.App20.prods_pos p1 g hp hg⟩

/-- Witness for C9 at the default inputs, deep in the decline phase. -/
theorem C9_production_positive_witness :
    (0 : ℚ) < 285000 ∧ (0 : ℚ) ≤ 1 / 50 ∧
    0 < GGP.App20.prods 285000 (1 / 50) 20 :=
  ⟨by norm_num, by norm_num,
    (C9_production_positive 285000 (1 / 50) (by norm_num) (by norm_num)).2 20⟩

/-- C6: when `capex_year1 ≤ capex_steady_state`, both capex policies — the
10-year proportional-gap one and the 20-year linear one — produce
`capex_steady_state` in every year from year 2 onward; and when
`capex_year1 = capex_steady_state` the whole path, year 1 included, is flat at
that value. -/
theorem C6_capex_flat (c1 ss : ℚ) (h : c1 ≤ ss) :
    (∀ t, 2 ≤ t →
      GGP.App10.capexes c1 ss t = ss ∧ GGP.App20.capexes c1 ss t = ss) ∧
    (c1 = ss → ∀ t,
      GGP.App10.capexes c1 ss t = ss ∧ GGP.App20.capexes c1 ss t = ss) := by
  have h10 : ∀ n : ℕ, GGP.App10.capexes c1 ss (n + 2) = ss := by
    intro n
    rw [GGP.App10.capexes10_two_add]
    have hgap : ¬c1 - ss > 0 := by linarith
    split
    · simp [hgap]
    · rfl
  have h20 : ∀ n : ℕ, GGP.App20.capexes c1 ss (n + 2) = ss := by
    intro n
    rw [GGP.App20.capexes_two_add]
    split
    · next hle =>
      have hn : (n : ℚ) ≤ 3 := by
        have : n ≤ 3 := by omega
        exact_mod_cast this
      have hn0 : (0 : ℚ) ≤ (n : ℚ) := Nat.cast_nonneg n
      have key : (0 : ℚ) ≤ (ss - c1) * (4 - (n : ℚ)) :=
        mul_nonneg (by linarith) (by linarith)
      rw [max_eq_right (by nlinarith)]
    · rfl
  refine ⟨?_, ?_⟩
  · intro t h2
    obtain ⟨n, rfl⟩ : ∃ n, t = n + 2 := ⟨t - 2, by omega⟩
    exact ⟨h10 n, h20 n⟩
  · intro hEq t
    match t with
    | 0 => exact ⟨hEq, hEq⟩
    | 1 => exact ⟨hEq, hEq⟩
    | n + 2 => exact ⟨h10 n, h20 n⟩

/-- Witness for C6 at the zero-gap boundary input. -/
theorem C6_capex_flat_witness :
    (150000000 : ℚ) ≤ 150000000 ∧
    GGP.App10.capexes 150000000 150000000 3 = 150000000 ∧
    GGP.App20.capexes 150000000 150000000 1 = 150000000 :=
  ⟨le_refl _,
    ((C6_capex_flat 150000000 150000000 (le_refl _)).1 3 (by norm_num)).1,
    (((C6_capex_flat 150000000 150000000 (le_refl _)).2 rfl) 1).2⟩

/-! ## Failure behaviour of the 10-year valuation (for C4) -/

namespace GGP.App10

lemma qdiv_eq_none_iff (a b : ℚ) : qdiv a b = none ↔ b = 0 := by
  unfold qdiv
  split <;> simp_all

lemma one_add_pow_eq_zero_iff (w : ℚ) (n : ℕ) : ((1 + w) ^ (n + 1) = 0) ↔ w = -1 := by
  rw [pow_eq_zero_iff (Nat.succ_ne_zero n)]
  constructor
  · intro h; linarith
  · intro h; rw [h]; ring

lemma pvList_succ_none (f : ℕ → ℚ) (tm w : ℚ) (n : ℕ) :
    pvList f tm w (n + 1) = none ↔ pvList f tm w n = none ∨ w = -1 := by
  cases h : pvList f tm w n with
  | none => simp [pvList, h]
  | some l =>
    simp only [pvList, h, Option.some_bind, qdiv]
    split_ifs with hc
    · simp [(one_add_pow_eq_zero_iff w n).mp hc]
    · have hne : ¬w = -1 := fun hw => hc ((one_add_pow_eq_zero_iff w n).mpr hw)
      simp [hne]

lemma pvList_none_iff (f : ℕ → ℚ) (tm w : ℚ) :
    ∀ n, pvList f tm w (n + 1) = none ↔ w = -1 := by
  intro n
  induction n with
  | zero => rw [pvList_succ_none]; simp [pvList]
  | succ m ih => rw [pvList_succ_none, ih]; tauto

lemma valuation_eq_none_iff (f : ℕ → ℚ) (tm w cash defer shares : ℚ) :
    valuation f tm w cash defer shares = none ↔ w = -1 ∨ shares = 0 := by
  have h10 : pvList f tm w 10 = none ↔ w = -1 := pvList_none_iff f tm w 9
  have hval : valuation f tm w cash defer shares =
      Option.bind (pvList f tm w 10) (fun pvs => qdiv (pvs.sum + cash - defer) shares) := rfl
  rw [hval]
  cases h : pvList f tm w 10 with
  | none =>
    simp only [h, Option.none_bind]
    exact iff_of_true trivial (Or.inl (h10.mp h))
  | some l =>
    simp only [h, Option.some_bind]
    rw [qdiv_eq_none_iff]
    have hne : ¬w = -1 := fun hw => by simp [h10.mpr hw] at h
    tauto

end GGP.App10

/-- C4 counterexample: `discount_rate = -2 ≤ -1` with non-zero shares (all
other inputs at their sidebar defaults) does NOT fail: the valuation completes
and returns a result, contradicting the claimed fail-fast for every
`discount_rate ≤ -1`.  The code only divides by zero at `discount_rate = -1`
exactly, and it raises a bare `ZeroDivisionError`, not an `InvalidInput`
validation error. -/
theorem C4_counterexample :
    (-2 : ℚ) ≤ -1 ∧
    GGP.App10.valuation
        (GGP.App10.fcf 4800 2600 50 285000 (1 / 50) 368000000 150000000 120000000)
        4 (-2) 750000000 115000000 670700000 ≠ none := by
  refine ⟨by norm_num, ?_⟩
  rw [Ne, GGP.App10.valuation_eq_none_iff]
  push_neg
  norm_num

/-- C4 amended: the 10-year valuation fails — by an unguarded Python division
by zero, the only failure the code can produce, with no result — exactly when
`shares_outstanding = 0` or `discount_rate = -1`; every other input succeeds
and returns the computed result, including inputs with `discount_rate < -1`
and inputs yielding negative FCF, negative equity value, or negative value per
share. -/
theorem C4_failure_condition (f : ℕ → ℚ) (tm w cash defer shares : ℚ) :
    GGP.App10.valuation f tm w cash defer shares = none ↔ w = -1 ∨ shares = 0 :=
  GGP.App10.valuation_eq_none_iff f tm w cash defer shares

/-- C7: a sensitivity-grid cell's value per share (the base AISC and capex
paths and all other inputs held fixed) is monotonically non-decreasing in the
gold-price option, and, for a fixed gold price, non-decreasing in the starting
production option.  The hypotheses record the sidebar/grid context the claim
presupposes: non-negative growth and improvement rates, a discount rate above
−100 % (the slider floor is 5 %), a non-negative terminal multiple, positive
share count, non-negative production options, and gold options at or above
every AISC value (the hard-coded gold options start at 4200 while the AISC
sidebar maximum is 4000 and the floor is 1600). -/
theorem C7_sensitivity_monotone
    (g a1 imp c1 ss corp tm w cash defer shares gold gold' prod prod' : ℚ)
    (hg : 0 ≤ g) (himp : 0 ≤ imp) (hw : -1 < w) (htm : 0 ≤ tm) (hsh : 0 < shares)
    (hprod : 0 ≤ prod) (ha1 : a1 ≤ gold) (hfl : 1600 ≤ gold)
    (hgold : gold ≤ gold') (hpp : prod ≤ prod') :
    GGP.App20.cell_vps_gbp gold prod g a1 imp c1 ss corp tm w cash defer shares ≤
      GGP.App20.cell_vps_gbp gold' prod g a1 imp c1 ss corp tm w cash defer shares ∧
    GGP.App20.cell_vps_gbp gold prod g a1 imp c1 ss corp tm w cash defer shares ≤
      GGP.App20.cell_vps_gbp gold prod' g a1 imp c1 ss corp tm w cash defer shares := by
  have hd : ∀ t : ℕ, (0 : ℚ) < (1 + w) ^ t := fun t => pow_pos (by linarith) t
  have hPn : ∀ t, 0 ≤ GGP.App20.prods prod g t :=
    GGP.App20.prods_nonneg prod g hprod hg
  have hmargin : ∀ t, 0 ≤ gold - GGP.aiscs a1 imp t := by
    intro t
    have h1 := GGP.aiscs_le_max a1 imp himp t
    have h2 : max a1 1600 ≤ gold := max_le ha1 hfl
    linarith
  have hfcf1 : ∀ t, GGP.App20.alt_fcf gold prod g a1 imp c1 ss corp t ≤
      GGP.App20.alt_fcf gold' prod g a1 imp c1 ss corp t := by
    intro t
    unfold GGP.App20.alt_fcf
    have := mul_le_mul_of_nonneg_right
      (sub_le_sub_right hgold (GGP.aiscs a1 imp t)) (hPn t)
    linarith
  have hfcf2 : ∀ t, GGP.App20.alt_fcf gold prod g a1 imp c1 ss corp t ≤
      GGP.App20.alt_fcf gold prod' g a1 imp c1 ss corp t := by
    intro t
    unfold GGP.App20.alt_fcf
    have := mul_le_mul_of_nonneg_left
      (GGP.App20.prods_mono1 g hg prod prod' hpp t) (hmargin t)
    linarith
  have step : ∀ F F' : ℕ → ℚ, (∀ t, F t ≤ F' t) →
      (∑ t in Finset.Icc 1 20, (F t + (if t = 20 then F 20 * tm else 0)) / (1 + w) ^ t
          + cash - defer) / shares / 2 ≤
      (∑ t in Finset.Icc 1 20, (F' t + (if t = 20 then F' 20 * tm else 0)) / (1 + w) ^ t
          + cash - defer) / shares / 2 := by
    intro F F' hFF
    have hsum : ∀ t, (F t + (if t = 20 then F 20 * tm else 0)) / (1 + w) ^ t ≤
        (F' t + (if t = 20 then F' 20 * tm else 0)) / (1 + w) ^ t := by
      intro t
      apply (div_le_div_iff_of_pos_right (hd t)).mpr
      refine add_le_add (hFF t) ?_
      split
      · exact mul_le_mul_of_nonneg_right (hFF 20) htm
      · exact le_refl 0
    have h1 : (∑ t in Finset.Icc 1 20, (F t + (if t = 20 then F 20 * tm else 0)) / (1 + w) ^ t)
        ≤ ∑ t in Finset.Icc 1 20, (F' t + (if t = 20 then F' 20 * tm else 0)) / (1 + w) ^ t :=
      Finset.sum_le_sum fun t _ => hsum t
    apply (div_le_div_iff_of_pos_right (by norm_num : (0:ℚ) < 2)).mpr
    apply (div_le_div_iff_of_pos_right hsh).mpr
    linarith
  constructor
  · exact step (GGP.App20.alt_fcf gold prod g a1 imp c1 ss corp)
      (GGP.App20.alt_fcf gold' prod g a1 imp c1 ss corp) hfcf1
  · exact step (GGP.App20.alt_fcf gold prod g a1 imp c1 ss corp)
      (GGP.App20.alt_fcf gold prod' g a1 imp c1 ss corp) hfcf2

/-- Witness for C7 at grid cells (gold 4200 vs 4500, production 250k vs 300k)
with the sidebar defaults. -/
theorem C7_sensitivity_monotone_witness :
    (0 : ℚ) < 670700000 ∧ (-1 : ℚ) < 1 / 10 ∧ (2600 : ℚ) ≤ 4200 ∧
    (GGP.App20.cell_vps_gbp 4200 250000 (1 / 50) 2600 50 368000000 150000000 120000000
        4 (1 / 10) 750000000 115000000 670700000 ≤
      GGP.App20.cell_vps_gbp 4500 250000 (1 / 50) 2600 50 368000000 150000000 120000000
        4 (1 / 10) 750000000 115000000 670700000 ∧
    GGP.App20.cell_vps_gbp 4200 250000 (1 / 50) 2600 50 368000000 150000000 120000000
        4 (1 / 10) 750000000 115000000 670700000 ≤
      GGP.App20.cell_vps_gbp 4200 300000 (1 / 50) 2600 50 368000000 150000000 120000000
        4 (1 / 10) 750000000 115000000 670700000) :=
  ⟨by norm_num, by norm_num, by norm_num,
    C7_sensitivity_monotone (1 / 50) 2600 50 368000000 150000000 120000000 4 (1 / 10)
      750000000 115000000 670700000 4200 4500 250000 300000
      (by norm_num) (by norm_num) (by norm_num) (by norm_num) (by norm_num)
      (by norm_num) (by norm_num) (by norm_num) (by norm_num) (by norm_num)⟩

/-- C10: for a fixed production option and the base AISC/capex paths, the
sensitivity cell's value per share (in AUD, before the display-layer halving
to GBP) is an affine function of the gold-price option: there is a constant C
with `vps(gold) = K * gold + C` for every gold price, where
`K = gold_coeff ... ≥ 0` is the discounted, terminal-multiple-weighted sum of
the cell's production path divided by the share count. -/
theorem C10_affine_in_gold (prod g a1 imp c1 ss corp tm w cash defer shares : ℚ)
    (hg : 0 ≤ g) (hprod : 0 ≤ prod) (hw : -1 < w) (htm : 0 ≤ tm) (hsh : 0 < shares) :
    0 ≤ GGP.App20.gold_coeff prod g tm w shares ∧
    ∃ C : ℚ, ∀ gold : ℚ,
      GGP.App20.cell_vps_aud gold prod g a1 imp c1 ss corp tm w cash defer shares =
        GGP.App20.gold_coeff prod g tm w shares * gold + C := by
  constructor
  · unfold GGP.App20.gold_coeff
    apply div_nonneg _ hsh.le
    apply Finset.sum_nonneg
    intro t _
    apply div_nonneg _ (pow_pos (by linarith : (0:ℚ) < 1 + w) t).le
    have h1 := GGP.App20.prods_nonneg prod g hprod hg t
    have h2 := GGP.App20.prods_nonneg prod g hprod hg 20
    split
    · exact add_nonneg h1 (mul_nonneg htm h2)
    · linarith
  · refine ⟨GGP.App20.cell_vps_aud 0 prod g a1 imp c1 ss corp tm w cash defer shares, ?_⟩
    intro gold
    have hpt : ∀ t, GGP.App20.alt_pv gold prod g a1 imp c1 ss corp tm w t =
        gold * ((GGP.App20.prods prod g t +
            if t = 20 then tm * GGP.App20.prods prod g 20 else 0) / (1 + w) ^ t) +
          GGP.App20.alt_pv 0 prod g a1 imp c1 ss corp tm w t := by
      intro t
      unfold GGP.App20.alt_pv GGP.App20.alt_total GGP.App20.alt_fcf
      by_cases h20 : t = 20
      · simp only [if_pos h20]
        ring
      · simp only [if_neg h20]
        ring
    unfold GGP.App20.cell_vps_aud GGP.App20.cell_equity GGP.App20.cell_ev
      GGP.App20.gold_coeff
    rw [Finset.sum_congr rfl fun t _ => hpt t, Finset.sum_add_distrib, ← Finset.mul_sum]
    ring

/-- Witness for C10 at the grid cell with production option 300k oz and the
sidebar defaults. -/
theorem C10_affine_in_gold_witness :
    (0 : ℚ) ≤ 1 / 50 ∧ (0 : ℚ) < 670700000 ∧
    (0 ≤ GGP.App20.gold_coeff 300000 (1 / 50) 4 (1 / 10) 670700000 ∧
      ∃ C : ℚ, ∀ gold : ℚ,
        GGP.App20.cell_vps_aud gold 300000 (1 / 50) 2600 50 368000000 150000000
            120000000 4 (1 / 10) 750000000 115000000 670700000 =
          GGP.App20.gold_coeff 300000 (1 / 50) 4 (1 / 10) 670700000 * gold + C) :=
  ⟨by norm_num, by norm_num,
    C10_affine_in_gold 300000 (1 / 50) 2600 50 368000000 150000000 120000000 4 (1 / 10)
      750000000 115000000 670700000
      (by norm_num) (by norm_num) (by norm_num) (by norm_num) (by norm_num)⟩
